import Mathlib

/-!
Verification of the etcd-monitor agent (etcd-monitor.go) against its
design specification.

The program polls `<address>/health` with an HTTPS GET once per tick,
decodes a JSON payload into `Health{IsHealthy bool `json:"health,string"`}`,
and emits a CloudWatch metric datum "UnhealthyCount" with count 0.0
(healthy) or 1.0 (every other outcome).  The scheduler in `main` runs one
check immediately, arms a ticker, and exits with status 0 on any OS signal.

This file embeds the program shallowly:
* JSON payloads are an inductive `Json` value; a body that is not valid
  JSON at all is represented by `none : Option Json`.
* `unmarshalHealth` models Go's `json.Unmarshal(buff, &status)` for the
  `Health` struct: a top-level JSON object is scanned field by field, a
  key is mapped to the `health` field when it matches it exactly or
  case-insensitively (Go's field matching; with a single struct field
  the two collapse to a case-insensitive test), the value must be a
  JSON string whose contents are the literal `true`, `false` or `null`
  (the `,string` tag; a quoted `null` is a no-op leaving the current
  value), a missing field leaves the zero value `false`, top-level
  `null` is a no-op, and any other top-level value is a type error.
* `checkEtcdHealth` maps a probe outcome to the ordered list of
  `reportUnhealtyCount` invocations (the counts passed) and the `[ERROR]`
  log lines it prints.
* `reportUnhealtyCount` builds the `PutMetricDataInput` value exactly as
  lines 202-223 of the source do and performs one `PutMetricData` call
  whose success or failure is an input (`SinkResult`).
* `mainStartup` is the ordered event trace of `main` after flag parsing:
  the unconditional `checkEtcdHealth()` (line 143), then
  `time.NewTicker` (line 145), which panics when the computed duration
  is not positive, then `signal.Notify(signalCh)` (line 147), then the
  select loop.  The duration `time.Duration(*interval) * time.Second`
  is computed in wrapping int64 arithmetic (the released binary is
  GOARCH=amd64, so `int` is 64 bits), modelled by `tickerDuration`.  No
  startup validation of the interval's sign exists in the source:
  `strconv.Atoi` (line 39) and `flag.Int` (line 45) accept any int64
  (out-of-range literals are rejected by the parsers themselves).
* `runLoop` is the select loop of lines 149-160 consuming a serialized
  trace of ticker firings and signal deliveries: events are handled one
  at a time, so a signal arriving during a tick is handled only after
  that tick's handler returns.

Counts are modelled as `Rat`: the only values the program ever passes are
the float literals 0.0 and 1.0, which are exact.
-/

namespace EtcdMonitor

/-- A JSON value, as decoded by Go's encoding/json.  Object fields are
kept in source order. -/
inductive Json where
  | null : Json
  | bool (b : Bool) : Json
  | str (s : String) : Json
  | num (n : Int) : Json
  | arr (elems : List Json) : Json
  | obj (fields : List (String × Json)) : Json

/-- The `Health` struct of etcd-monitor.go line 30-32:
`IsHealthy bool` tagged `json:"health,string"`. -/
structure Health where
  IsHealthy : Bool
deriving DecidableEq

/-- The `,string` tag makes Go re-decode the string's contents as a JSON
literal for the bool field: `true` and `false` set the field, a quoted
`null` is a no-op leaving the current value (`Unmarshal` still
succeeds), anything else is an error (Go also tolerates surrounding
JSON whitespace, which cannot change the result). -/
def decodeBoolString : String → Except String (Option Bool)
  | "true" => Except.ok (some true)
  | "false" => Except.ok (some false)
  | "null" => Except.ok none
  | _ => Except.error "json: cannot unmarshal string into Go struct field Health.health of type bool"

/-- Decoding of the value found under a key matching `health`: the
`,string` tag requires a JSON string (any other kind is `invalid use of
,string struct tag`), whose contents are then decoded as a boolean
literal (`none` = quoted null, leave the field untouched). -/
def decodeHealthValue : Json → Except String (Option Bool)
  | Json.str s => decodeBoolString s
  | _ => Except.error "json: invalid use of ,string struct tag, trying to unmarshal into bool"

/-- Go's encoding/json field matching for the `health` field: an exact
match is preferred, but a case-insensitive match is also accepted; with
a single struct field both collapse to a case-insensitive comparison.
The field name is ASCII, so Go's fold coincides with ASCII
lower-casing of the key. -/
def keyMatchesHealth (k : String) : Bool :=
  k.data.map Char.toLower == "health".data

/-- Go's struct decoding scans the object's fields in order; a key is
mapped to the `health` field when it matches it (case-insensitively),
unknown fields are ignored, a later duplicate overwrites an earlier
one, and a bad value makes `Unmarshal` report an error. -/
def decodeHealthFields : Health → List (String × Json) → Except String Health
  | h, [] => Except.ok h
  | h, (k, v) :: rest =>
    if keyMatchesHealth k then
      (decodeHealthValue v).bind (fun ob => decodeHealthFields ⟨ob.getD h.IsHealthy⟩ rest)
    else
      decodeHealthFields h rest

/-- Model of `json.Unmarshal(buff, &status)` for `status : Health` on a body that
parsed as JSON value `j`: an object is scanned field-wise, `null` leaves
the zero value `Health{false}` untouched, and any other top-level value
is a type error. -/
def unmarshalHealthJson : Json → Except String Health
  | Json.null => Except.ok ⟨false⟩
  | Json.obj fields => decodeHealthFields ⟨false⟩ fields
  | _ => Except.error "json: cannot unmarshal value into Go value of type main.Health"

/-- Model of `json.Unmarshal` on the raw body: `none` stands for a byte string
that is not valid JSON (a syntax error before any struct decoding). -/
def unmarshalHealth : Option Json → Except String Health
  | none => Except.error "invalid character in health response body"
  | some j => unmarshalHealthJson j

/-- The three ways one probe (lines 165-181) can turn out before the
decode step: `client.Get` fails, `ioutil.ReadAll` fails, or a full body
is obtained (`payload`; `none` = bytes that are not valid JSON). -/
inductive ProbeOutcome where
  | connError : ProbeOutcome
  | readError : ProbeOutcome
  | payload (body : Option Json) : ProbeOutcome

/-- Observable effects of one `checkEtcdHealth()` invocation:
the `[ERROR]` log lines printed and the counts passed to
`reportUnhealtyCount`, in order. -/
structure CheckOutcome where
  errorLogs : List String
  reportCalls : List Rat
deriving DecidableEq

/-- Function `checkEtcdHealth` (lines 164-193): every branch logs at most one
error and calls `reportUnhealtyCount` exactly once — 1.0 on connection
failure, body-read failure or decode failure, otherwise 0.0 iff the
decoded `IsHealthy` is true. -/
def checkEtcdHealth : ProbeOutcome → CheckOutcome
  | ProbeOutcome.connError =>
      ⟨["[ERROR] Failed to connect to etcd"], [1]⟩
  | ProbeOutcome.readError =>
      ⟨["[ERROR] Failed to get etcd health"], [1]⟩
  | ProbeOutcome.payload body =>
    match unmarshalHealth body with
    | Except.error _ => ⟨["[ERROR] Invalid health response payload"], [1]⟩
    | Except.ok status =>
      if status.IsHealthy then ⟨[], [0]⟩ else ⟨[], [1]⟩

/-- Struct `cloudwatch.StatisticSet` as filled in at lines 212-217. -/
structure StatisticSet where
  Maximum : Rat
  Minimum : Rat
  SampleCount : Rat
  Sum : Rat
deriving DecidableEq

/-- Struct `cloudwatch.Dimension`: a name/value tag (lines 207-210). -/
structure Dimension where
  Name : String
  Value : String
deriving DecidableEq

/-- Struct `cloudwatch.MetricDatum` with the fields the program sets (lines
204-220).  The timestamp is abstract wall-clock time (`Nat`). -/
structure MetricDatum where
  MetricName : String
  Dimensions : List Dimension
  StatisticValues : StatisticSet
  Timestamp : Nat
  Unit : String
deriving DecidableEq

/-- Struct `cloudwatch.PutMetricDataInput` (lines 202-223). -/
structure PutMetricDataInput where
  MetricData : List MetricDatum
  Namespace : String
deriving DecidableEq

/-- The `params` value built inside `reportUnhealtyCount` (lines
202-223), for the given count, `*etcdName`, `*namespace` and the
`time.Now()` reading `now`. -/
def reportParams (count : Rat) (etcdName Namespace : String) (now : Nat) :
    PutMetricDataInput :=
  { MetricData :=
      [ { MetricName := "UnhealthyCount"
          Dimensions := [ { Name := "By cluster", Value := etcdName } ]
          StatisticValues :=
            { Maximum := count, Minimum := count, SampleCount := 1, Sum := count }
          Timestamp := now
          Unit := "Count" } ]
    Namespace := Namespace }

/-- Outcome of the one `cw.PutMetricData(params)` network call
(line 225), an input to the model: the backend either accepts the datum
or fails with an error message. -/
inductive SinkResult where
  | ok : SinkResult
  | err (msg : String) : SinkResult
deriving DecidableEq

/-- Observable effects of one `reportUnhealtyCount` invocation: the log
lines printed, the `PutMetricData` calls attempted (in order), the calls
the backend accepted, and the error the function propagates to its
caller — the Go function has no return value, so this is always `none`. -/
structure ReportOutcome where
  logs : List String
  putCalls : List PutMetricDataInput
  delivered : List PutMetricDataInput
  returnedError : Option String
deriving DecidableEq

/-- Function `reportUnhealtyCount` (lines 195-229): logs the health line, builds
`params`, performs exactly one `PutMetricData` call; on failure it logs
the error and returns — no retry, no propagation. -/
def reportUnhealtyCount (count : Rat) (etcdName Namespace : String) (now : Nat)
    (sink : SinkResult) : ReportOutcome :=
  let healthLog :=
    if count > 0 then "[INFO] etcd IS NOT healthy" else "[INFO] etcd is healthy"
  let params := reportParams count etcdName Namespace now
  match sink with
  | SinkResult.ok =>
      { logs := [healthLog], putCalls := [params], delivered := [params]
        returnedError := none }
  | SinkResult.err msg =>
      { logs := [healthLog, msg], putCalls := [params], delivered := []
        returnedError := none }

/-- One full tick (probe then emit): the `reportUnhealtyCount`
invocations a `checkEtcdHealth()` call performs, each evaluated against
the same sink outcome and `time.Now()` reading. -/
def tickReports (o : ProbeOutcome) (etcdName Namespace : String) (now : Nat)
    (sink : SinkResult) : List ReportOutcome :=
  (checkEtcdHealth o).reportCalls.map
    (fun c => reportUnhealtyCount c etcdName Namespace now sink)

/-- All `PutMetricData` calls a tick attempts. -/
def tickPutCalls (o : ProbeOutcome) (etcdName Namespace : String) (now : Nat)
    (sink : SinkResult) : List PutMetricDataInput :=
  (tickReports o etcdName Namespace now sink).flatMap ReportOutcome.putCalls

/-- Events the select loop (lines 149-160) can receive, serialized:
a ticker firing or an OS signal (identified by its number).  Because the
loop body is synchronous, a signal delivered while `checkEtcdHealth()`
is running sits in the buffered channel and appears in the trace after
that tick's event. -/
inductive Event where
  | tick : Event
  | signal (s : Nat) : Event
deriving DecidableEq

/-- Actions the loop performs: one `checkEtcdHealth()` invocation,
`ticker.Stop()`, and `os.Exit(code)`. -/
inductive LoopAction where
  | runCheck : LoopAction
  | stopTicker : LoopAction
  | exitProcess (code : Nat) : LoopAction
deriving DecidableEq

/-- The select loop: a ticker firing runs one check and loops; the first
signal stops the ticker and exits the process with status 0, so no
event after it is ever processed. -/
def runLoop : List Event → List LoopAction
  | [] => []
  | Event.tick :: es => LoopAction.runCheck :: runLoop es
  | Event.signal _ :: _ => [LoopAction.stopTicker, LoopAction.exitProcess 0]

/-- Model of `signal.Notify(c, sig...)`: with an empty signal list all incoming
signals are relayed to the channel; otherwise only the listed ones.
`main` calls `signal.Notify(signalCh)` (line 147) — empty list. -/
def notifySignalFilter : List Nat → Nat → Bool
  | [], _ => true
  | sigs, s => sigs.contains s

/-- The signal numbers relayed to `signalCh` by `main`. -/
def mainNotifiedSignals : Nat → Bool := notifySignalFilter []

/-- Startup events of `main` after flag parsing and TLS/client setup
(lines 143-149), in program order. -/
inductive MainEvent where
  | configError : MainEvent
  | firstCheck : MainEvent
  | tickerArmed : MainEvent
  | panicNonPositiveTicker : MainEvent
  | signalsRegistered : MainEvent
  | loopEntered : MainEvent
deriving DecidableEq

/-- Two's-complement wrap-around into int64: the representative of `n`
modulo 2^64 lying in `[-9223372036854775808, 9223372036854775808)`
(the literals are 2^63 and 2^64). -/
def int64Wrap (n : Int) : Int :=
  (n + 9223372036854775808) % 18446744073709551616 - 9223372036854775808

/-- Value in nanoseconds of `time.Duration(*interval) * time.Second`
(line 145): Go multiplies two int64 values with defined wrap-around on
overflow, so the product is reduced modulo 2^64 into int64 range.  The
resolved interval itself always fits int64: `strconv.Atoi` and
`flag.Int` reject out-of-range literals. -/
def tickerDuration (interval : Int) : Int :=
  int64Wrap (interval * 1000000000)

/-- The startup trace of `main` as a function of the resolved interval.
No code path validates the interval's sign: `strconv.Atoi` (line 39)
only rejects non-numeric or out-of-range `CHECK_INTERVAL` and
`flag.Int` (line 45) accepts any int64, so `main` reaches line 143 for
every int64 interval.  It then runs `checkEtcdHealth()` unconditionally
(line 143), and only afterwards calls
`time.NewTicker(time.Duration(*interval) * time.Second)` (line 145),
which panics when the wrapped int64 duration is not positive; otherwise
it registers signals (line 147) and enters the select loop (line 149). -/
def mainStartup (interval : Int) : List MainEvent :=
  MainEvent.firstCheck ::
    (if tickerDuration interval ≤ 0 then
      [MainEvent.panicNonPositiveTicker]
    else
      [MainEvent.tickerArmed, MainEvent.signalsRegistered, MainEvent.loopEntered])

/-- Helper: `int64Wrap` is the identity on values already in int64
range. -/
theorem int64Wrap_eq_self (n : Int)
    (h1 : -9223372036854775808 ≤ n) (h2 : n < 9223372036854775808) :
    int64Wrap n = n := by
  unfold int64Wrap
  have h3 : 0 ≤ n + 9223372036854775808 := by linarith
  have h4 : n + 9223372036854775808 < 18446744073709551616 := by linarith
  rw [Int.emod_eq_of_lt h3 h4]
  ring

/-- Helper: for intervals in `[-9223372036, 9223372036]` the product
with 10^9 does not overflow int64, so the ticker duration is the plain
product. -/
theorem tickerDuration_no_overflow (i : Int)
    (hlo : -9223372036 ≤ i) (hhi : i ≤ 9223372036) :
    tickerDuration i = i * 1000000000 := by
  unfold tickerDuration
  apply int64Wrap_eq_self
  · have h := mul_le_mul_of_nonneg_right hlo (by norm_num : (0 : Int) ≤ 1000000000)
    norm_num at h
    linarith
  · have h := mul_le_mul_of_nonneg_right hhi (by norm_num : (0 : Int) ≤ 1000000000)
    norm_num at h
    linarith

/-- Helper: the datum list a tick puts on the wire is exactly the
`params` values for the counts the check produced, independent of the
sink outcome. -/
theorem tickPutCalls_eq (o : ProbeOutcome) (etcdName Namespace : String)
    (now : Nat) (sink : SinkResult) :
    tickPutCalls o etcdName Namespace now sink =
      (checkEtcdHealth o).reportCalls.map
        (fun c => reportParams c etcdName Namespace now) := by
  unfold tickPutCalls tickReports
  cases sink <;>
    induction (checkEtcdHealth o).reportCalls with
    | nil => rfl
    | cons c cs ih => simp_all [reportUnhealtyCount]

/-- Helper: every count a check passes to `reportUnhealtyCount` is 0 or 1. -/
theorem reportCalls_binary :
    ∀ o : ProbeOutcome, ∀ c ∈ (checkEtcdHealth o).reportCalls, c = 0 ∨ c = 1 := by
  intro o c hc
  cases o with
  | connError => simp [checkEtcdHealth] at hc; simp [hc]
  | readError => simp [checkEtcdHealth] at hc; simp [hc]
  | payload body =>
    cases h : unmarshalHealth body with
    | error e => simp [checkEtcdHealth, h] at hc; simp [hc]
    | ok status =>
      obtain ⟨b⟩ := status
      cases b <;> simp [checkEtcdHealth, h] at hc <;> simp [hc]

/-- C1: the count passed to the metric emission is exactly 0 when the
GET succeeds and the decoded payload's health boolean is true, and
exactly 1 in every other case (decoded false, connection failure,
unreadable body, undecodable payload); no other value ever occurs. -/
theorem checkEtcdHealth_binary_counts :
    (∀ body, unmarshalHealth body = Except.ok ⟨true⟩ →
      (checkEtcdHealth (ProbeOutcome.payload body)).reportCalls = [0]) ∧
    (∀ body, unmarshalHealth body = Except.ok ⟨false⟩ →
      (checkEtcdHealth (ProbeOutcome.payload body)).reportCalls = [1]) ∧
    (∀ body e, unmarshalHealth body = Except.error e →
      (checkEtcdHealth (ProbeOutcome.payload body)).reportCalls = [1]) ∧
    (checkEtcdHealth ProbeOutcome.connError).reportCalls = [1] ∧
    (checkEtcdHealth ProbeOutcome.readError).reportCalls = [1] ∧
    (∀ o, ∀ c ∈ (checkEtcdHealth o).reportCalls, c = 0 ∨ c = 1) := by
  refine ⟨?_, ?_, ?_, rfl, rfl, reportCalls_binary⟩
  · intro body h; simp [checkEtcdHealth, h]
  · intro body h; simp [checkEtcdHealth, h]
  · intro body e h; simp [checkEtcdHealth, h]

/-- Witness for C1 at the payload `\x7b"health": "true"\x7d`. -/
theorem checkEtcdHealth_binary_counts_witness :
    (checkEtcdHealth (ProbeOutcome.payload
      (some (Json.obj [("health", Json.str "true")])))).reportCalls = [0] :=
  checkEtcdHealth_binary_counts.1
    (some (Json.obj [("health", Json.str "true")])) rfl

/-- C2: every tick performs exactly one metric emission call — the check
invokes `reportUnhealtyCount` exactly once, with a count that is 0 or 1,
and that invocation attempts exactly one `PutMetricData` call. -/
theorem tick_single_emission :
    ∀ o : ProbeOutcome,
      (checkEtcdHealth o).reportCalls.length = 1 ∧
      ∀ c ∈ (checkEtcdHealth o).reportCalls,
        (c = 0 ∨ c = 1) ∧
        ∀ etcdName Namespace now sink,
          (reportUnhealtyCount c etcdName Namespace now sink).putCalls.length = 1 := by
  intro o
  constructor
  · cases o with
    | connError => rfl
    | readError => rfl
    | payload body =>
      cases h : unmarshalHealth body with
      | error e => simp [checkEtcdHealth, h]
      | ok status =>
        obtain ⟨b⟩ := status
        cases b <;> simp [checkEtcdHealth, h]
  · intro c hc
    constructor
    · exact reportCalls_binary o c hc
    · intro etcdName Namespace now sink
      cases sink <;> simp [reportUnhealtyCount]

/-- Witness for C2 at a connection-failure tick with count 1. -/
theorem tick_single_emission_witness :
    (checkEtcdHealth ProbeOutcome.connError).reportCalls.length = 1 ∧
    (((1 : Rat) = 0 ∨ (1 : Rat) = 1) ∧
      (reportUnhealtyCount 1 "etcd" "etcd" 0 SinkResult.ok).putCalls.length = 1) :=
  ⟨(tick_single_emission ProbeOutcome.connError).1,
    ((tick_single_emission ProbeOutcome.connError).2 1 (by simp [checkEtcdHealth])).1,
    ((tick_single_emission ProbeOutcome.connError).2 1
      (by simp [checkEtcdHealth])).2 "etcd" "etcd" 0 SinkResult.ok⟩

/-- C3 counterexample: with interval 0 the first probe-and-report cycle
runs (it is the first startup event) and no configuration error is
reported — the process only dies afterwards, by the `time.NewTicker`
panic — refuting "startup aborts with a configuration error before the
first probe-and-report cycle runs". -/
theorem interval_zero_first_check_runs_before_abort :
    mainStartup 0 = [MainEvent.firstCheck, MainEvent.panicNonPositiveTicker] ∧
    (mainStartup 0).head? = some MainEvent.firstCheck ∧
    MainEvent.configError ∉ mainStartup 0 := by
  refine ⟨by decide, by decide, by decide⟩

/-- C3 (amended): for every interval ≤ 0 no startup validation rejects
the value — the immediate first probe-and-report cycle executes first
and no configuration error is ever reported; when additionally the
int64 product interval × 10⁹ ns does not wrap (all intervals in
`[-9223372036, 0]`), arming the ticker then panics
(`time.NewTicker` rejects non-positive durations), so the timer loop —
and hence any timed tick — is never reached.  More negative intervals
wrap to a positive duration and do start the timer loop. -/
theorem interval_nonpositive_panics_after_first_check :
    ∀ i : Int, i ≤ 0 →
      (mainStartup i).head? = some MainEvent.firstCheck ∧
      MainEvent.configError ∉ mainStartup i ∧
      (-9223372036 ≤ i →
        mainStartup i = [MainEvent.firstCheck, MainEvent.panicNonPositiveTicker] ∧
        MainEvent.tickerArmed ∉ mainStartup i ∧
        MainEvent.loopEntered ∉ mainStartup i) := by
  intro i h
  refine ⟨rfl, ?_, ?_⟩
  · by_cases hd : tickerDuration i ≤ 0 <;> simp [mainStartup, hd]
  · intro hlo
    have hd : tickerDuration i = i * 1000000000 :=
      tickerDuration_no_overflow i hlo (by linarith)
    have hpos : tickerDuration i ≤ 0 := by
      rw [hd]
      exact mul_nonpos_iff.mpr (Or.inr ⟨h, by norm_num⟩)
    simp [mainStartup, if_pos hpos]

/-- Witness for the amended C3 at interval -5. -/
theorem interval_nonpositive_panics_after_first_check_witness :
    (mainStartup (-5)).head? = some MainEvent.firstCheck ∧
    MainEvent.configError ∉ mainStartup (-5) ∧
    (mainStartup (-5) = [MainEvent.firstCheck, MainEvent.panicNonPositiveTicker] ∧
      MainEvent.tickerArmed ∉ mainStartup (-5) ∧
      MainEvent.loopEntered ∉ mainStartup (-5)) :=
  ⟨(interval_nonpositive_panics_after_first_check (-5) (by decide)).1,
   (interval_nonpositive_panics_after_first_check (-5) (by decide)).2.1,
   (interval_nonpositive_panics_after_first_check (-5) (by decide)).2.2 (by decide)⟩

/-- C4: every emission attempts exactly the `params` input, whose single
datum has metric name "UnhealthyCount", unit "Count", one dimension
("By cluster", configured cluster name), the configured namespace, the
emission-time timestamp, and a single-sample statistic set with
sample count 1 and minimum = maximum = sum = the count passed in. -/
theorem metric_datum_contract :
    ∀ (count : Rat) (etcdName Namespace : String) (now : Nat) (sink : SinkResult),
      (reportUnhealtyCount count etcdName Namespace now sink).putCalls =
        [reportParams count etcdName Namespace now] ∧
      (reportParams count etcdName Namespace now).Namespace = Namespace ∧
      ∃ d, (reportParams count etcdName Namespace now).MetricData = [d] ∧
        d.MetricName = "UnhealthyCount" ∧
        d.Unit = "Count" ∧
        d.Dimensions = [{ Name := "By cluster", Value := etcdName }] ∧
        d.Timestamp = now ∧
        d.StatisticValues.SampleCount = 1 ∧
        d.StatisticValues.Minimum = count ∧
        d.StatisticValues.Maximum = count ∧
        d.StatisticValues.Sum = count := by
  intro count etcdName Namespace now sink
  exact ⟨by cases sink <;> rfl, rfl,
    _, rfl, rfl, rfl, rfl, rfl, rfl, rfl, rfl, rfl⟩

/-- C5: a signal received after any number of completed ticks stops the
ticker and exits the process with status 0; the preceding ticks all
complete, and no event after the signal — in particular no further
ticker firing — is ever processed.  Serialization of the select loop
means an in-flight tick's event precedes the signal's in the trace. -/
theorem signal_stops_ticker_and_exits_zero :
    ∀ (n s : Nat) (rest : List Event),
      runLoop (List.replicate n Event.tick ++ Event.signal s :: rest) =
        List.replicate n LoopAction.runCheck ++
          [LoopAction.stopTicker, LoopAction.exitProcess 0] := by
  intro n s rest
  induction n with
  | zero => rfl
  | succ k ih => simp [List.replicate_succ, runLoop, ih]

/-- C6: when the `PutMetricData` call fails, the failure is logged and
swallowed: exactly one call was attempted (no retry), nothing was
delivered for the tick, the error message appears in the log, and no
error is returned to the caller. -/
theorem sink_failure_logged_and_swallowed :
    ∀ (count : Rat) (etcdName Namespace : String) (now : Nat) (msg : String),
      (reportUnhealtyCount count etcdName Namespace now (SinkResult.err msg)).putCalls.length = 1 ∧
      (reportUnhealtyCount count etcdName Namespace now (SinkResult.err msg)).delivered = [] ∧
      msg ∈ (reportUnhealtyCount count etcdName Namespace now (SinkResult.err msg)).logs ∧
      (reportUnhealtyCount count etcdName Namespace now (SinkResult.err msg)).returnedError = none := by
  intro count etcdName Namespace now msg
  refine ⟨rfl, rfl, ?_, rfl⟩
  simp [reportUnhealtyCount]

/-- C7: for every interval, the startup trace begins with the
unconditional first probe-and-report cycle, which occurs exactly once
and is not gated on the timer — everything else, in particular arming
the ticker, comes after it.  Whenever the wrapped int64 duration is
positive — in particular for every interval in `[1, 9223372036]`, the
whole range whose nanosecond product does not overflow int64 — the
trace then arms the ticker, registers signals and enters the loop. -/
theorem first_check_precedes_ticker :
    ∀ i : Int,
      (∃ tail, mainStartup i = MainEvent.firstCheck :: tail ∧
        MainEvent.firstCheck ∉ tail) ∧
      (0 < tickerDuration i →
        mainStartup i = [MainEvent.firstCheck, MainEvent.tickerArmed,
          MainEvent.signalsRegistered, MainEvent.loopEntered]) ∧
      (0 < i → i ≤ 9223372036 →
        mainStartup i = [MainEvent.firstCheck, MainEvent.tickerArmed,
          MainEvent.signalsRegistered, MainEvent.loopEntered]) := by
  intro i
  refine ⟨?_, ?_, ?_⟩
  · by_cases hd : tickerDuration i ≤ 0
    · exact ⟨[MainEvent.panicNonPositiveTicker], by simp [mainStartup, hd], by decide⟩
    · exact ⟨[MainEvent.tickerArmed, MainEvent.signalsRegistered, MainEvent.loopEntered],
        by simp [mainStartup, hd], by decide⟩
  · intro hd
    simp [mainStartup, if_neg (not_le.mpr hd)]
  · intro hpos hhi
    have hd : tickerDuration i = i * 1000000000 :=
      tickerDuration_no_overflow i (by linarith) hhi
    have hgt : 0 < tickerDuration i := by
      rw [hd]
      exact mul_pos hpos (by norm_num)
    simp [mainStartup, if_neg (not_le.mpr hgt)]

/-- Witness for C7 at the default interval 60. -/
theorem first_check_precedes_ticker_witness :
    (∃ tail, mainStartup 60 = MainEvent.firstCheck :: tail ∧
      MainEvent.firstCheck ∉ tail) ∧
    mainStartup 60 = [MainEvent.firstCheck, MainEvent.tickerArmed,
      MainEvent.signalsRegistered, MainEvent.loopEntered] ∧
    mainStartup 60 = [MainEvent.firstCheck, MainEvent.tickerArmed,
      MainEvent.signalsRegistered, MainEvent.loopEntered] :=
  ⟨(first_check_precedes_ticker 60).1,
   (first_check_precedes_ticker 60).2.1 (by decide),
   (first_check_precedes_ticker 60).2.2 (by decide) (by decide)⟩

/-- C8: two ticks that observe the same probe outcome under the same
configuration put identical data on the wire in every field except the
timestamp: projecting away `Timestamp` makes the two call lists equal. -/
theorem identical_responses_identical_metrics :
    ∀ (o : ProbeOutcome) (etcdName Namespace : String) (t1 t2 : Nat)
      (sink : SinkResult),
      (tickPutCalls o etcdName Namespace t1 sink).map
        (fun p => (p.Namespace, p.MetricData.map
          (fun d => (d.MetricName, d.Dimensions, d.StatisticValues, d.Unit)))) =
      (tickPutCalls o etcdName Namespace t2 sink).map
        (fun p => (p.Namespace, p.MetricData.map
          (fun d => (d.MetricName, d.Dimensions, d.StatisticValues, d.Unit)))) := by
  intro o etcdName Namespace t1 t2 sink
  rw [tickPutCalls_eq, tickPutCalls_eq, List.map_map, List.map_map]
  rfl

/-- C9: `main` registers for all OS signals (its `signal.Notify` call
lists none, so every signal number is relayed), and receipt of any
signal whatsoever while waiting exits the process with status 0 after
stopping the ticker. -/
theorem all_signals_relayed_and_exit_zero :
    ∀ (s : Nat) (rest : List Event),
      mainNotifiedSignals s = true ∧
      runLoop (Event.signal s :: rest) =
        [LoopAction.stopTicker, LoopAction.exitProcess 0] :=
  fun _ _ => ⟨rfl, rfl⟩

/-- C10 counterexample: the object whose single key is `Health` lacks
an exact `health` key, yet Go's case-insensitive field matching decodes
it to `IsHealthy = true`: the tick logs no error and emits count 0, not
the claimed default-false count 1. -/
theorem capitalized_health_key_decodes_true :
    (∀ f ∈ [(("Health" : String), Json.str "true")], f.1 ≠ "health") ∧
    unmarshalHealth (some (Json.obj [("Health", Json.str "true")])) =
      Except.ok ⟨true⟩ ∧
    (checkEtcdHealth (ProbeOutcome.payload
      (some (Json.obj [("Health", Json.str "true")])))).errorLogs = [] ∧
    (checkEtcdHealth (ProbeOutcome.payload
      (some (Json.obj [("Health", Json.str "true")])))).reportCalls = [0] := by
  exact ⟨by decide, rfl, rfl, rfl⟩

/-- C10 (amended): a JSON object none of whose keys matches the
`health` field under Go's case-insensitive field matching decodes
successfully to the zero value `false` — the decode-error branch is not
taken, no invalid-payload error line is logged, and the tick reports
count 1 via the ordinary unhealthy branch. -/
theorem missing_health_field_decodes_false :
    ∀ fields : List (String × Json),
      (∀ f ∈ fields, keyMatchesHealth f.1 = false) →
      unmarshalHealth (some (Json.obj fields)) = Except.ok ⟨false⟩ ∧
      (checkEtcdHealth (ProbeOutcome.payload (some (Json.obj fields)))).errorLogs = [] ∧
      (checkEtcdHealth (ProbeOutcome.payload (some (Json.obj fields)))).reportCalls = [1] := by
  intro fields hf
  have hdec : ∀ fs : List (String × Json), (∀ f ∈ fs, keyMatchesHealth f.1 = false) →
      ∀ h : Health, decodeHealthFields h fs = Except.ok h := by
    intro fs
    induction fs with
    | nil => intro _ h; rfl
    | cons f rest ih =>
      intro hfs h
      obtain ⟨k, v⟩ := f
      have hk : keyMatchesHealth k = false := hfs (k, v) (by simp)
      rw [decodeHealthFields, if_neg (by simp [hk])]
      exact ih (fun g hg => hfs g (by simp [hg])) h
  have h1 : unmarshalHealth (some (Json.obj fields)) = Except.ok ⟨false⟩ := by
    simpa [unmarshalHealth, unmarshalHealthJson] using hdec fields hf ⟨false⟩
  exact ⟨h1, by simp [checkEtcdHealth, h1], by simp [checkEtcdHealth, h1]⟩

/-- Witness for C10 at the empty object payload. -/
theorem missing_health_field_decodes_false_witness :
    unmarshalHealth (some (Json.obj [])) = Except.ok ⟨false⟩ ∧
    (checkEtcdHealth (ProbeOutcome.payload (some (Json.obj [])))).errorLogs = [] ∧
    (checkEtcdHealth (ProbeOutcome.payload (some (Json.obj [])))).reportCalls = [1] :=
  missing_health_field_decodes_false [] (by intro f hf; cases hf)

end EtcdMonitor
